import Mathlib

/-!
Verification of the agefix AGXCL python SDK (src/agxcl_sdk/client.py and
src/agxcl_sdk/contracts.py) against its specification.

The SDK is request/response glue: every operation builds a JSON payload,
issues one HTTP request through a `requests.Session`, and maps the JSON
response onto a plain data record (or wraps the failure).  The embedding
makes the HTTP transport explicit: a `Transport` is a function from the
request the SDK builds to the outcome the session call produces (either a
raised exception or a status/reason/body response).  Each operation is a
pure function of the configuration, the transport and its arguments,
returning its Python result together with the list of HTTP requests it
issued, so "no network call" is the statement that this list is empty.

Python exceptions are modelled by `PyExc` together with `PyExc.str`, the
text `str(e)` yields; a Python function that can raise returns
`Except PyExc α`.  Python values flowing out of `response.json()` are
modelled by `Json`; dataclass fields that Python does not enforce the
annotated type of (for instance `TransactionResult.tx_hash`) are therefore
`Json` valued.
-/

/-- A JSON value, as produced by `response.json()`.  `null` also stands for
Python `None`. -/
inductive Json where
  | null
  | bool (b : Bool)
  | num (n : Int)
  | str (s : String)
  | arr (xs : List Json)
  | obj (fields : List (String × Json))

/-- Python truthiness of a value (`if not x` takes the branch exactly when
`pyFalsy x = true`). -/
def pyFalsy : Json → Bool
  | .null => true
  | .bool b => !b
  | .num n => n == 0
  | .str s => s.isEmpty
  | .arr xs => xs.isEmpty
  | .obj fs => fs.isEmpty

/-- Python truthiness of an `Optional[str]` field: `None` and `""` are
falsy. -/
def strFalsy : Option String → Bool
  | none => true
  | some s => s.isEmpty

/-- A Python exception: the constructors the client code can observe from
its `try` blocks (transport errors raised by the session call,
`requests.HTTPError` from `raise_for_status`, `KeyError`/`TypeError` from
indexing the decoded body, `ValueError` from `.json()` on a malformed
body, and the `RuntimeError`s the client itself raises). -/
inductive PyExc where
  | connectionError (msg : String)
  | httpError (msg : String)
  | keyError (key : String)
  | typeError (msg : String)
  | valueError (msg : String)
  | runtimeError (msg : String)

/-- `str(e)` for each exception; `str` of a `KeyError` is the `repr` of the
missing key, i.e. the key surrounded by single quotes. -/
def PyExc.str : PyExc → String
  | .connectionError m => m
  | .httpError m => m
  | .keyError k => (Char.ofNat 39).toString ++ k ++ (Char.ofNat 39).toString
  | .typeError m => m
  | .valueError m => m
  | .runtimeError m => m

/-- One HTTP request as the SDK builds it: method, full URL, optional JSON
payload (the `json=` keyword argument) and the timeout passed to the
session call.  The session also carries the fixed
`Content-Type: application/json` header on every request. -/
structure Request where
  httpMethod : String
  url : String
  jsonBody : Option Json
  timeout : Nat

/-- What one session call can do: raise (connection error, timeout, ...) or
deliver a response with a status code, a reason phrase, and the result of
decoding the body with `.json()` (which itself may raise). -/
inductive TransportOutcome where
  | exc (e : PyExc)
  | response (status : Nat) (reason : String) (decodedBody : Except PyExc Json)

/-- A behaviour of the HTTP transport: the outcome of each request. -/
def Transport := Request → TransportOutcome

/-- `response.raise_for_status()`: raises `requests.HTTPError` exactly for
status codes 400-599, with the message `requests` formats. -/
def raiseForStatus (status : Nat) (reason : String) (url : String) : Except PyExc Unit :=
  if 400 ≤ status ∧ status < 500 then
    .error (.httpError (toString status ++ " Client Error: " ++ reason ++ " for url: " ++ url))
  else if 500 ≤ status ∧ status < 600 then
    .error (.httpError (toString status ++ " Server Error: " ++ reason ++ " for url: " ++ url))
  else
    .ok ()

/-- First binding of a key in a decoded JSON object, in insertion order. -/
def getField : List (String × Json) → String → Option Json
  | [], _ => none
  | (k, v) :: rest, key => if k = key then some v else getField rest key

/-- `data[key]` on the decoded body: `KeyError` when the key is absent from
a dict, `TypeError` when the value is not a dict at all. -/
def Json.getItem : Json → String → Except PyExc Json
  | .obj fields, key =>
    match getField fields key with
    | some v => .ok v
    | none => .error (.keyError key)
  | .null, _ => .error (.typeError "NoneType object is not subscriptable")
  | .bool _, _ => .error (.typeError "bool object is not subscriptable")
  | .num _, _ => .error (.typeError "int object is not subscriptable")
  | .str _, _ => .error (.typeError "string indices must be integers")
  | .arr _, _ => .error (.typeError "list indices must be integers or slices, not str")

/-- The shared request/response step of every operation: issue the request,
`raise_for_status()`, then `response.json()`. -/
def checkedJson (transport : Transport) (req : Request) : Except PyExc Json :=
  match transport req with
  | .exc e => .error e
  | .response status reason decodedBody =>
    match raiseForStatus status reason req.url with
    | .error e => .error e
    | .ok _ => decodedBody

/-- `json` serialization of an `Optional[str]` field: `None` becomes JSON
null. -/
def jsonOfOptStr : Option String → Json
  | none => .null
  | some s => .str s

/-- Python default-argument normalisation `if args is None: args = []`. -/
def defaultArgs : Option (List Json) → List Json
  | none => []
  | some xs => xs

/-- `AgefixConfig`: a plain (non-frozen) dataclass. -/
structure AgefixConfig where
  rpc_url : String
  chain_id : String
  private_key : Option String

/-- Whether the `@dataclass` decorator on `AgefixConfig` was given
`frozen=True`.  The source uses the bare decorator, whose default is
`frozen=False`. -/
def agefixConfigFrozen : Bool := false

/-- Attribute assignment `config.rpc_url = v` after construction: a frozen
dataclass raises `FrozenInstanceError`, a plain one mutates the field. -/
def AgefixConfig.setattrRpcUrl (c : AgefixConfig) (v : String) : Except PyExc AgefixConfig :=
  if agefixConfigFrozen then
    .error (.typeError "cannot assign to field rpc_url")
  else
    .ok { c with rpc_url := v }

/-- `ContractDeployment` dataclass. -/
structure ContractDeployment where
  contract_address : Json
  transaction_hash : Json
  block_number : Json

/-- `QueryResult` dataclass; `data` is `Json.null` when Python stores
`None`. -/
structure QueryResult where
  success : Bool
  data : Json
  error : Option String

/-- `TransactionResult` dataclass. -/
structure TransactionResult where
  tx_hash : Json
  block_number : Json
  gas_used : Json
  success : Bool

namespace AgefixClient

/-- The request `deploy_contract` posts to `/deploy`. -/
def deployRequest (cfg : AgefixConfig) (contract_code : String)
    (constructor_args : List Json) : Request :=
  { httpMethod := "POST"
    url := cfg.rpc_url ++ "/deploy"
    jsonBody := some (.obj
      [("code", .str contract_code),
       ("args", .arr constructor_args),
       ("chainId", .str cfg.chain_id),
       ("privateKey", jsonOfOptStr cfg.private_key)])
    timeout := 30 }

/-- The body of `deploy_contract`'s `try` block. -/
def deployAttempt (cfg : AgefixConfig) (transport : Transport) (contract_code : String)
    (constructor_args : List Json) : Except PyExc ContractDeployment :=
  match checkedJson transport (deployRequest cfg contract_code constructor_args) with
  | .error e => .error e
  | .ok data =>
    match data.getItem "contractAddress" with
    | .error e => .error e
    | .ok ca =>
      match data.getItem "txHash" with
      | .error e => .error e
      | .ok th =>
        match data.getItem "blockNumber" with
        | .error e => .error e
        | .ok bn => .ok { contract_address := ca, transaction_hash := th, block_number := bn }

/-- `AgefixClient.deploy_contract`: one POST to `/deploy`; any exception is
re-raised as a `RuntimeError` wrapping its text. -/
def deploy_contract (cfg : AgefixConfig) (transport : Transport) (contract_code : String)
    (constructor_args : Option (List Json)) : Except PyExc ContractDeployment × List Request :=
  let xs := defaultArgs constructor_args
  let result :=
    match deployAttempt cfg transport contract_code xs with
    | .ok d => .ok d
    | .error e => .error (.runtimeError ("Contract deployment failed: " ++ e.str))
  (result, [deployRequest cfg contract_code xs])

/-- The request `query_contract` posts to `/query`. -/
def queryRequest (cfg : AgefixConfig) (contract_address : Json) (method : String)
    (args : List Json) : Request :=
  { httpMethod := "POST"
    url := cfg.rpc_url ++ "/query"
    jsonBody := some (.obj
      [("contractAddress", contract_address),
       ("method", .str method),
       ("args", .arr args),
       ("chainId", .str cfg.chain_id)])
    timeout := 30 }

/-- The body of `query_contract`'s `try` block. -/
def queryAttempt (cfg : AgefixConfig) (transport : Transport) (contract_address : Json)
    (method : String) (args : List Json) : Except PyExc Json :=
  match checkedJson transport (queryRequest cfg contract_address method args) with
  | .error e => .error e
  | .ok data => data.getItem "result"

/-- `AgefixClient.query_contract`: one POST to `/query`; never raises, any
exception becomes `QueryResult(success=False, data=None, error=str(e))`. -/
def query_contract (cfg : AgefixConfig) (transport : Transport) (contract_address : Json)
    (method : String) (args : Option (List Json)) : QueryResult × List Request :=
  let xs := defaultArgs args
  let result :=
    match queryAttempt cfg transport contract_address method xs with
    | .ok r => { success := true, data := r, error := none }
    | .error e => { success := false, data := .null, error := some e.str }
  (result, [queryRequest cfg contract_address method xs])

/-- The request `execute_transaction` posts to `/execute`. -/
def executeRequest (cfg : AgefixConfig) (contract_address : Json) (method : String)
    (args : List Json) (value : String) : Request :=
  { httpMethod := "POST"
    url := cfg.rpc_url ++ "/execute"
    jsonBody := some (.obj
      [("contractAddress", contract_address),
       ("method", .str method),
       ("args", .arr args),
       ("value", .str value),
       ("chainId", .str cfg.chain_id),
       ("privateKey", jsonOfOptStr cfg.private_key)])
    timeout := 30 }

/-- The body of `execute_transaction`'s `try` block. -/
def executeAttempt (cfg : AgefixConfig) (transport : Transport) (contract_address : Json)
    (method : String) (args : List Json) (value : String) : Except PyExc TransactionResult :=
  match checkedJson transport (executeRequest cfg contract_address method args value) with
  | .error e => .error e
  | .ok data =>
    match data.getItem "txHash" with
    | .error e => .error e
    | .ok th =>
      match data.getItem "blockNumber" with
      | .error e => .error e
      | .ok bn =>
        match data.getItem "gasUsed" with
        | .error e => .error e
        | .ok gu => .ok { tx_hash := th, block_number := bn, gas_used := gu, success := true }

/-- `AgefixClient.execute_transaction`: raises at once when no (truthy)
private key is configured, otherwise one POST to `/execute` with failures
re-raised as `RuntimeError`. -/
def execute_transaction (cfg : AgefixConfig) (transport : Transport) (contract_address : Json)
    (method : String) (args : Option (List Json)) (value : String) :
    Except PyExc TransactionResult × List Request :=
  if strFalsy cfg.private_key then
    (.error (.runtimeError "Private key required for transactions"), [])
  else
    let xs := defaultArgs args
    let result :=
      match executeAttempt cfg transport contract_address method xs value with
      | .ok r => .ok r
      | .error e => .error (.runtimeError ("Transaction execution failed: " ++ e.str))
    (result, [executeRequest cfg contract_address method xs value])

/-- The GET request of `get_transaction_receipt`. -/
def receiptRequest (cfg : AgefixConfig) (tx_hash : String) : Request :=
  { httpMethod := "GET", url := cfg.rpc_url ++ "/tx/" ++ tx_hash, jsonBody := none, timeout := 30 }

/-- The body of `get_transaction_receipt`'s `try` block. -/
def receiptAttempt (cfg : AgefixConfig) (transport : Transport) (tx_hash : String) :
    Except PyExc Json :=
  checkedJson transport (receiptRequest cfg tx_hash)

/-- `AgefixClient.get_transaction_receipt`. -/
def get_transaction_receipt (cfg : AgefixConfig) (transport : Transport) (tx_hash : String) :
    Except PyExc Json × List Request :=
  let result :=
    match receiptAttempt cfg transport tx_hash with
    | .ok j => .ok j
    | .error e => .error (.runtimeError ("Failed to get transaction receipt: " ++ e.str))
  (result, [receiptRequest cfg tx_hash])

/-- The GET request of `get_balance`. -/
def balanceRequest (cfg : AgefixConfig) (address : String) : Request :=
  { httpMethod := "GET", url := cfg.rpc_url ++ "/balance/" ++ address, jsonBody := none,
    timeout := 30 }

/-- The body of `get_balance`'s `try` block. -/
def balanceAttempt (cfg : AgefixConfig) (transport : Transport) (address : String) :
    Except PyExc Json :=
  match checkedJson transport (balanceRequest cfg address) with
  | .error e => .error e
  | .ok data => data.getItem "balance"

/-- `AgefixClient.get_balance`. -/
def get_balance (cfg : AgefixConfig) (transport : Transport) (address : String) :
    Except PyExc Json × List Request :=
  let result :=
    match balanceAttempt cfg transport address with
    | .ok j => .ok j
    | .error e => .error (.runtimeError ("Failed to get balance: " ++ e.str))
  (result, [balanceRequest cfg address])

/-- The request `estimate_gas` posts to `/estimateGas`. -/
def estimateGasRequest (cfg : AgefixConfig) (contract_address : Json) (method : String)
    (args : List Json) : Request :=
  { httpMethod := "POST"
    url := cfg.rpc_url ++ "/estimateGas"
    jsonBody := some (.obj
      [("contractAddress", contract_address),
       ("method", .str method),
       ("args", .arr args),
       ("chainId", .str cfg.chain_id)])
    timeout := 30 }

/-- The body of `estimate_gas`'s `try` block. -/
def estimateGasAttempt (cfg : AgefixConfig) (transport : Transport) (contract_address : Json)
    (method : String) (args : List Json) : Except PyExc Json :=
  match checkedJson transport (estimateGasRequest cfg contract_address method args) with
  | .error e => .error e
  | .ok data => data.getItem "gasEstimate"

/-- `AgefixClient.estimate_gas`. -/
def estimate_gas (cfg : AgefixConfig) (transport : Transport) (contract_address : Json)
    (method : String) (args : Option (List Json)) : Except PyExc Json × List Request :=
  let xs := defaultArgs args
  let result :=
    match estimateGasAttempt cfg transport contract_address method xs with
    | .ok j => .ok j
    | .error e => .error (.runtimeError ("Failed to estimate gas: " ++ e.str))
  (result, [estimateGasRequest cfg contract_address method xs])

end AgefixClient

/-- The AGXCL token contract source text `TokenContract.deploy` renders: the
f-string template of contracts.py with `name`, `symbol` and `total_supply`
interpolated (braces written with escapes). -/
def token_code (name symbol total_supply : String) : String :=
  "\ncontract Token \x7b\n" ++
  "  state \x7b\n" ++
  "    string name = \"" ++ name ++ "\";\n" ++
  "    string symbol = \"" ++ symbol ++ "\";\n" ++
  "    uint256 totalSupply = " ++ total_supply ++ ";\n" ++
  "    mapping(address => uint256) balances;\n" ++
  "    mapping(address => mapping(address => uint256)) allowances;\n" ++
  "  \x7d\n\n" ++
  "  constructor() \x7b\n" ++
  "    balances[msg.sender] = totalSupply;\n" ++
  "  \x7d\n\n" ++
  "  function balanceOf(address account) public view returns (uint256) \x7b\n" ++
  "    return balances[account];\n" ++
  "  \x7d\n\n" ++
  "  function transfer(address to, uint256 amount) public returns (bool) \x7b\n" ++
  "    require(balances[msg.sender] >= amount, \"Insufficient balance\");\n" ++
  "    balances[msg.sender] -= amount;\n" ++
  "    balances[to] += amount;\n" ++
  "    emit Transfer(msg.sender, to, amount);\n" ++
  "    return true;\n" ++
  "  \x7d\n\n" ++
  "  function approve(address spender, uint256 amount) public returns (bool) \x7b\n" ++
  "    allowances[msg.sender][spender] = amount;\n" ++
  "    emit Approval(msg.sender, spender, amount);\n" ++
  "    return true;\n" ++
  "  \x7d\n\n" ++
  "  function transferFrom(address from, address to, uint256 amount) public returns (bool) \x7b\n" ++
  "    require(balances[from] >= amount, \"Insufficient balance\");\n" ++
  "    require(allowances[from][msg.sender] >= amount, \"Insufficient allowance\");\n" ++
  "    balances[from] -= amount;\n" ++
  "    balances[to] += amount;\n" ++
  "    allowances[from][msg.sender] -= amount;\n" ++
  "    emit Transfer(from, to, amount);\n" ++
  "    return true;\n" ++
  "  \x7d\n\n" ++
  "  event Transfer(address indexed from, address indexed to, uint256 value);\n" ++
  "  event Approval(address indexed owner, address indexed spender, uint256 value);\n" ++
  "\x7d\n        "

/-- The AGXCL NFT contract source text `NFTContract.deploy` renders. -/
def nft_code (name symbol : String) : String :=
  "\ncontract NFT \x7b\n" ++
  "  state \x7b\n" ++
  "    string name = \"" ++ name ++ "\";\n" ++
  "    string symbol = \"" ++ symbol ++ "\";\n" ++
  "    uint256 nextTokenId = 1;\n" ++
  "    mapping(uint256 => address) owners;\n" ++
  "    mapping(uint256 => string) tokenURIs;\n" ++
  "    mapping(address => uint256) balances;\n" ++
  "  \x7d\n\n" ++
  "  function mint(address to, string memory uri) public returns (uint256) \x7b\n" ++
  "    uint256 tokenId = nextTokenId++;\n" ++
  "    owners[tokenId] = to;\n" ++
  "    tokenURIs[tokenId] = uri;\n" ++
  "    balances[to]++;\n" ++
  "    emit Mint(to, tokenId, uri);\n" ++
  "    return tokenId;\n" ++
  "  \x7d\n\n" ++
  "  function ownerOf(uint256 tokenId) public view returns (address) \x7b\n" ++
  "    return owners[tokenId];\n" ++
  "  \x7d\n\n" ++
  "  function tokenURI(uint256 tokenId) public view returns (string memory) \x7b\n" ++
  "    return tokenURIs[tokenId];\n" ++
  "  \x7d\n\n" ++
  "  function balanceOf(address owner) public view returns (uint256) \x7b\n" ++
  "    return balances[owner];\n" ++
  "  \x7d\n\n" ++
  "  event Mint(address indexed to, uint256 indexed tokenId, string uri);\n" ++
  "\x7d\n        "

/-- `TokenContract` helper: the client it delegates to (its configuration;
the session is part of the transport argument of each method) and the
stored contract address.  The address starts as Python `None`
(`Json.null`) and is any value `deploy` stored afterwards. -/
structure TokenContract where
  client : AgefixConfig
  contract_address : Json

/-- `NFTContract` helper. -/
structure NFTContract where
  client : AgefixConfig
  contract_address : Json

namespace TokenContract

/-- `TokenContract.deploy`: renders the token template, deploys it through
the client and, on success, stores the returned contract address on the
helper.  The result is (Python result, the helper state afterwards, the
requests issued). -/
def deploy (tc : TokenContract) (transport : Transport) (name symbol total_supply : String) :
    Except PyExc ContractDeployment × TokenContract × List Request :=
  let r := AgefixClient.deploy_contract tc.client transport (token_code name symbol total_supply)
    none
  match r.1 with
  | .ok d => (.ok d, { tc with contract_address := d.contract_address }, r.2)
  | .error e => (.error e, tc, r.2)

/-- `TokenContract.balance_of`: fails fast when no (truthy) address is
stored, otherwise delegates to `query_contract` with method `balanceOf`
and returns the result's `data` field. -/
def balance_of (tc : TokenContract) (transport : Transport) (address : Json) :
    Except PyExc Json × TokenContract × List Request :=
  if pyFalsy tc.contract_address then
    (.error (.runtimeError "Contract not deployed"), tc, [])
  else
    let r := AgefixClient.query_contract tc.client transport tc.contract_address "balanceOf"
      (some [address])
    (.ok r.1.data, tc, r.2)

/-- `TokenContract.transfer`: fails fast when no (truthy) address is
stored, otherwise delegates to `execute_transaction` with method
`transfer`. -/
def transfer (tc : TokenContract) (transport : Transport) (dest amount : Json) :
    Except PyExc TransactionResult × TokenContract × List Request :=
  if pyFalsy tc.contract_address then
    (.error (.runtimeError "Contract not deployed"), tc, [])
  else
    let r := AgefixClient.execute_transaction tc.client transport tc.contract_address "transfer"
      (some [dest, amount]) "0"
    (r.1, tc, r.2)

/-- `TokenContract.approve`: fails fast when no (truthy) address is stored,
otherwise delegates to `execute_transaction` with method `approve`. -/
def approve (tc : TokenContract) (transport : Transport) (spender amount : Json) :
    Except PyExc TransactionResult × TokenContract × List Request :=
  if pyFalsy tc.contract_address then
    (.error (.runtimeError "Contract not deployed"), tc, [])
  else
    let r := AgefixClient.execute_transaction tc.client transport tc.contract_address "approve"
      (some [spender, amount]) "0"
    (r.1, tc, r.2)

end TokenContract

namespace NFTContract

/-- `NFTContract.deploy`: renders the NFT template, deploys it and, on
success, stores the returned contract address on the helper. -/
def deploy (nc : NFTContract) (transport : Transport) (name symbol : String) :
    Except PyExc ContractDeployment × NFTContract × List Request :=
  let r := AgefixClient.deploy_contract nc.client transport (nft_code name symbol) none
  match r.1 with
  | .ok d => (.ok d, { nc with contract_address := d.contract_address }, r.2)
  | .error e => (.error e, nc, r.2)

/-- `NFTContract.mint`: fails fast when no (truthy) address is stored,
otherwise delegates to `execute_transaction` with method `mint`. -/
def mint (nc : NFTContract) (transport : Transport) (dest uri : Json) :
    Except PyExc TransactionResult × NFTContract × List Request :=
  if pyFalsy nc.contract_address then
    (.error (.runtimeError "Contract not deployed"), nc, [])
  else
    let r := AgefixClient.execute_transaction nc.client transport nc.contract_address "mint"
      (some [dest, uri]) "0"
    (r.1, nc, r.2)

/-- `NFTContract.owner_of`: fails fast when no (truthy) address is stored,
otherwise delegates to `query_contract` with method `ownerOf` and returns
the result's `data` field. -/
def owner_of (nc : NFTContract) (transport : Transport) (token_id : Json) :
    Except PyExc Json × NFTContract × List Request :=
  if pyFalsy nc.contract_address then
    (.error (.runtimeError "Contract not deployed"), nc, [])
  else
    let r := AgefixClient.query_contract nc.client transport nc.contract_address "ownerOf"
      (some [token_id])
    (.ok r.1.data, nc, r.2)

end NFTContract

/-! ### Concrete fixtures used to instantiate the theorems -/

/-- A configuration with no signing key. -/
def cfgNoKey : AgefixConfig :=
  { rpc_url := "https://rpc.agefix.com", chain_id := "agefix-mainnet-1", private_key := none }

/-- A configuration with a signing key. -/
def cfgWithKey : AgefixConfig :=
  { rpc_url := "https://rpc.agefix.com", chain_id := "agefix-mainnet-1",
    private_key := some "your_private_key" }

/-- A transport on which every session call raises a connection error with a
descriptive message. -/
def trConnRefused : Transport := fun _ => .exc (.connectionError "connection refused")

/-- A transport on which every session call raises a connection error whose
exception carries an empty message (so `str(e)` is `""`). -/
def trEmptyConnError : Transport := fun _ => .exc (.connectionError "")

/-- The `/deploy` mock of the spec's round-trip scenario. -/
def mockDeployTransport : Transport := fun _ =>
  .response 200 "OK" (.ok (.obj
    [("contractAddress", .str "0xabc"), ("txHash", .str "0x1"), ("blockNumber", .num 10)]))

/-- The `/query` mock of the spec's balance scenario. -/
def mockQuery500Transport : Transport := fun _ =>
  .response 200 "OK" (.ok (.obj [("result", .str "500")]))

/-- The `/execute` mock of the spec's transfer scenario. -/
def mockExecTransport : Transport := fun _ =>
  .response 200 "OK" (.ok (.obj
    [("txHash", .str "0x2"), ("blockNumber", .num 11), ("gasUsed", .num 21000)]))

/-! ### Claims -/

/-- Claim C1, counterexample to the clause `error=<non-empty string>`: a
transport whose connection error carries an empty message (possible, since
the error text is whatever `str(e)` yields) makes `query_contract` return
`success=false` with `error` equal to the empty string. -/
theorem C1_counterexample :
    (AgefixClient.query_contract cfgNoKey trEmptyConnError (.str "0xa") "getValue" none).1.success
        = false ∧
    (AgefixClient.query_contract cfgNoKey trEmptyConnError (.str "0xa") "getValue" none).1.error
        = some "" := by
  exact ⟨rfl, rfl⟩

/-- Claim C1 (amended): for every input and every behaviour of the HTTP
transport, `query_contract` never raises (it is total into `QueryResult`):
when the request/decode/lookup pipeline succeeds with `v` it returns
`QueryResult(success=true, data=v, error=None)`, and on any failure it
returns `QueryResult(success=false, data=None, error=str(e))` — the
exception's text, which is non-empty for HTTP status errors and
missing-field errors but may be empty when the transport raises an
exception with an empty message. -/
theorem C1_query_never_raises (cfg : AgefixConfig) (transport : Transport) (a : Json)
    (m : String) (args : Option (List Json)) :
    (∀ v, AgefixClient.queryAttempt cfg transport a m (defaultArgs args) = .ok v →
      (AgefixClient.query_contract cfg transport a m args).1 =
        { success := true, data := v, error := none }) ∧
    (∀ e, AgefixClient.queryAttempt cfg transport a m (defaultArgs args) = .error e →
      (AgefixClient.query_contract cfg transport a m args).1 =
        { success := false, data := .null, error := some e.str }) := by
  constructor
  · intro v h
    simp [AgefixClient.query_contract, h]
  · intro e h
    simp [AgefixClient.query_contract, h]

/-- Witness for C1: the success branch at the mocked `/query` response and
the failure branch at a concrete connection error. -/
theorem C1_query_never_raises_witness :
    (AgefixClient.query_contract cfgNoKey mockQuery500Transport (.str "0xtoken") "balanceOf"
        none).1 = { success := true, data := .str "500", error := none } ∧
    (AgefixClient.query_contract cfgNoKey trConnRefused (.str "0xtoken") "balanceOf" none).1 =
      { success := false, data := .null, error := some "connection refused" } :=
  ⟨(C1_query_never_raises cfgNoKey mockQuery500Transport (.str "0xtoken") "balanceOf" none).1
      (.str "500") rfl,
   (C1_query_never_raises cfgNoKey trConnRefused (.str "0xtoken") "balanceOf" none).2
      (.connectionError "connection refused") rfl⟩

/-- Claim C2: with no (truthy) signing key configured,
`execute_transaction` raises the `RuntimeError` at once and the list of
HTTP requests it issued is empty, for every address, method, args and
value. -/
theorem C2_execute_requires_key (cfg : AgefixConfig) (transport : Transport) (a : Json)
    (m : String) (args : Option (List Json)) (value : String)
    (h : strFalsy cfg.private_key = true) :
    AgefixClient.execute_transaction cfg transport a m args value =
      (.error (.runtimeError "Private key required for transactions"), []) := by
  simp [AgefixClient.execute_transaction, h]

/-- Witness for C2 at a concrete key-less configuration. -/
theorem C2_execute_requires_key_witness :
    strFalsy cfgNoKey.private_key = true ∧
    AgefixClient.execute_transaction cfgNoKey trConnRefused (.str "0xa") "transfer" none "0" =
      (.error (.runtimeError "Private key required for transactions"), []) :=
  ⟨rfl, C2_execute_requires_key cfgNoKey trConnRefused (.str "0xa") "transfer" none "0" rfl⟩

/-- Claim C3: every Token/NFT helper method other than `deploy`
(`balance_of`, `transfer`, `approve`, `mint`, `owner_of`), when the
helper's contract address is not set (Python-falsy), raises the local
`RuntimeError("Contract not deployed")` immediately and issues no HTTP
request; and when the address is set (truthy) it delegates to
`query_contract` / `execute_transaction` with the stored address, its
fixed method name and its positional argument list. -/
theorem C3_helpers_fail_fast_or_delegate (tc : TokenContract) (nc : NFTContract)
    (transport : Transport) (x y : Json) :
    (pyFalsy tc.contract_address = true →
      TokenContract.balance_of tc transport x =
        (.error (.runtimeError "Contract not deployed"), tc, [])) ∧
    (pyFalsy tc.contract_address = true →
      TokenContract.transfer tc transport x y =
        (.error (.runtimeError "Contract not deployed"), tc, [])) ∧
    (pyFalsy tc.contract_address = true →
      TokenContract.approve tc transport x y =
        (.error (.runtimeError "Contract not deployed"), tc, [])) ∧
    (pyFalsy nc.contract_address = true →
      NFTContract.mint nc transport x y =
        (.error (.runtimeError "Contract not deployed"), nc, [])) ∧
    (pyFalsy nc.contract_address = true →
      NFTContract.owner_of nc transport x =
        (.error (.runtimeError "Contract not deployed"), nc, [])) ∧
    (pyFalsy tc.contract_address = false →
      TokenContract.balance_of tc transport x =
        (.ok (AgefixClient.query_contract tc.client transport tc.contract_address "balanceOf"
            (some [x])).1.data, tc,
         (AgefixClient.query_contract tc.client transport tc.contract_address "balanceOf"
            (some [x])).2)) ∧
    (pyFalsy tc.contract_address = false →
      TokenContract.transfer tc transport x y =
        ((AgefixClient.execute_transaction tc.client transport tc.contract_address "transfer"
            (some [x, y]) "0").1, tc,
         (AgefixClient.execute_transaction tc.client transport tc.contract_address "transfer"
            (some [x, y]) "0").2)) ∧
    (pyFalsy tc.contract_address = false →
      TokenContract.approve tc transport x y =
        ((AgefixClient.execute_transaction tc.client transport tc.contract_address "approve"
            (some [x, y]) "0").1, tc,
         (AgefixClient.execute_transaction tc.client transport tc.contract_address "approve"
            (some [x, y]) "0").2)) ∧
    (pyFalsy nc.contract_address = false →
      NFTContract.mint nc transport x y =
        ((AgefixClient.execute_transaction nc.client transport nc.contract_address "mint"
            (some [x, y]) "0").1, nc,
         (AgefixClient.execute_transaction nc.client transport nc.contract_address "mint"
            (some [x, y]) "0").2)) ∧
    (pyFalsy nc.contract_address = false →
      NFTContract.owner_of nc transport x =
        (.ok (AgefixClient.query_contract nc.client transport nc.contract_address "ownerOf"
            (some [x])).1.data, nc,
         (AgefixClient.query_contract nc.client transport nc.contract_address "ownerOf"
            (some [x])).2)) := by
  refine ⟨?_, ?_, ?_, ?_, ?_, ?_, ?_, ?_, ?_, ?_⟩ <;> intro h
  · simp [TokenContract.balance_of, h]
  · simp [TokenContract.transfer, h]
  · simp [TokenContract.approve, h]
  · simp [NFTContract.mint, h]
  · simp [NFTContract.owner_of, h]
  · simp [TokenContract.balance_of, h]
  · simp [TokenContract.transfer, h]
  · simp [TokenContract.approve, h]
  · simp [NFTContract.mint, h]
  · simp [NFTContract.owner_of, h]

/-- Witness for C3: a helper with no address (every method fails locally
with zero requests) and a helper with the address set (every method
delegates). -/
theorem C3_helpers_fail_fast_or_delegate_witness :
    (TokenContract.balance_of ⟨cfgNoKey, .null⟩ trConnRefused (.str "0xu") =
      (.error (.runtimeError "Contract not deployed"), ⟨cfgNoKey, .null⟩, [])) ∧
    (TokenContract.transfer ⟨cfgNoKey, .null⟩ trConnRefused (.str "0xu") (.str "1") =
      (.error (.runtimeError "Contract not deployed"), ⟨cfgNoKey, .null⟩, [])) ∧
    (TokenContract.approve ⟨cfgNoKey, .null⟩ trConnRefused (.str "0xu") (.str "1") =
      (.error (.runtimeError "Contract not deployed"), ⟨cfgNoKey, .null⟩, [])) ∧
    (NFTContract.mint ⟨cfgNoKey, .null⟩ trConnRefused (.str "0xu") (.str "uri") =
      (.error (.runtimeError "Contract not deployed"), ⟨cfgNoKey, .null⟩, [])) ∧
    (NFTContract.owner_of ⟨cfgNoKey, .null⟩ trConnRefused (.num 1) =
      (.error (.runtimeError "Contract not deployed"), ⟨cfgNoKey, .null⟩, [])) ∧
    (TokenContract.balance_of ⟨cfgNoKey, .str "0xabc"⟩ trConnRefused (.str "0xu") =
      (.ok (AgefixClient.query_contract cfgNoKey trConnRefused (.str "0xabc") "balanceOf"
          (some [.str "0xu"])).1.data, ⟨cfgNoKey, .str "0xabc"⟩,
       (AgefixClient.query_contract cfgNoKey trConnRefused (.str "0xabc") "balanceOf"
          (some [.str "0xu"])).2)) ∧
    (TokenContract.transfer ⟨cfgNoKey, .str "0xabc"⟩ trConnRefused (.str "0xu") (.str "1") =
      ((AgefixClient.execute_transaction cfgNoKey trConnRefused (.str "0xabc") "transfer"
          (some [.str "0xu", .str "1"]) "0").1, ⟨cfgNoKey, .str "0xabc"⟩,
       (AgefixClient.execute_transaction cfgNoKey trConnRefused (.str "0xabc") "transfer"
          (some [.str "0xu", .str "1"]) "0").2)) ∧
    (TokenContract.approve ⟨cfgNoKey, .str "0xabc"⟩ trConnRefused (.str "0xu") (.str "1") =
      ((AgefixClient.execute_transaction cfgNoKey trConnRefused (.str "0xabc") "approve"
          (some [.str "0xu", .str "1"]) "0").1, ⟨cfgNoKey, .str "0xabc"⟩,
       (AgefixClient.execute_transaction cfgNoKey trConnRefused (.str "0xabc") "approve"
          (some [.str "0xu", .str "1"]) "0").2)) ∧
    (NFTContract.mint ⟨cfgNoKey, .str "0xabc"⟩ trConnRefused (.str "0xu") (.str "uri") =
      ((AgefixClient.execute_transaction cfgNoKey trConnRefused (.str "0xabc") "mint"
          (some [.str "0xu", .str "uri"]) "0").1, ⟨cfgNoKey, .str "0xabc"⟩,
       (AgefixClient.execute_transaction cfgNoKey trConnRefused (.str "0xabc") "mint"
          (some [.str "0xu", .str "uri"]) "0").2)) ∧
    (NFTContract.owner_of ⟨cfgNoKey, .str "0xabc"⟩ trConnRefused (.num 1) =
      (.ok (AgefixClient.query_contract cfgNoKey trConnRefused (.str "0xabc") "ownerOf"
          (some [.num 1])).1.data, ⟨cfgNoKey, .str "0xabc"⟩,
       (AgefixClient.query_contract cfgNoKey trConnRefused (.str "0xabc") "ownerOf"
          (some [.num 1])).2)) := by
  have h1 := C3_helpers_fail_fast_or_delegate ⟨cfgNoKey, .null⟩ ⟨cfgNoKey, .null⟩ trConnRefused
    (.str "0xu") (.str "1")
  have h2 := C3_helpers_fail_fast_or_delegate ⟨cfgNoKey, .str "0xabc"⟩ ⟨cfgNoKey, .str "0xabc"⟩
    trConnRefused (.str "0xu") (.str "1")
  have h3 := C3_helpers_fail_fast_or_delegate ⟨cfgNoKey, .null⟩ ⟨cfgNoKey, .null⟩ trConnRefused
    (.str "0xu") (.str "uri")
  have h4 := C3_helpers_fail_fast_or_delegate ⟨cfgNoKey, .str "0xabc"⟩ ⟨cfgNoKey, .str "0xabc"⟩
    trConnRefused (.str "0xu") (.str "uri")
  have h5 := C3_helpers_fail_fast_or_delegate ⟨cfgNoKey, .null⟩ ⟨cfgNoKey, .null⟩ trConnRefused
    (.num 1) (.str "1")
  have h6 := C3_helpers_fail_fast_or_delegate ⟨cfgNoKey, .str "0xabc"⟩ ⟨cfgNoKey, .str "0xabc"⟩
    trConnRefused (.num 1) (.str "1")
  exact ⟨h1.1 rfl, h1.2.1 rfl, h1.2.2.1 rfl, h3.2.2.2.1 rfl, h5.2.2.2.2.1 rfl,
    h2.2.2.2.2.2.1 rfl, h2.2.2.2.2.2.2.1 rfl, h2.2.2.2.2.2.2.2.1 rfl,
    h4.2.2.2.2.2.2.2.2.1 rfl, h6.2.2.2.2.2.2.2.2.2 rfl⟩

/-- Claim C4: against a `/deploy` endpoint answering
`{contractAddress:"0xabc", txHash:"0x1", blockNumber:10}`,
`TokenContract.deploy` returns a deployment record with exactly those
three values, stores `"0xabc"` as the helper's address, and every
subsequent query (`balance_of`) or execute (`transfer`, when a signing key
is configured) from the helper issues its request with exactly
`contractAddress = "0xabc"`. -/
theorem C4_deploy_round_trip (cfg : AgefixConfig) (addr0 : Json)
    (name symbol supply : String) (transport2 : Transport) (user dest amt : Json)
    (hkey : strFalsy cfg.private_key = false) :
    TokenContract.deploy ⟨cfg, addr0⟩ mockDeployTransport name symbol supply =
      (.ok { contract_address := .str "0xabc", transaction_hash := .str "0x1",
             block_number := .num 10 },
       ⟨cfg, .str "0xabc"⟩,
       [AgefixClient.deployRequest cfg (token_code name symbol supply) []]) ∧
    (TokenContract.balance_of ⟨cfg, .str "0xabc"⟩ transport2 user).2.2 =
      [AgefixClient.queryRequest cfg (.str "0xabc") "balanceOf" [user]] ∧
    (TokenContract.transfer ⟨cfg, .str "0xabc"⟩ transport2 dest amt).2.2 =
      [AgefixClient.executeRequest cfg (.str "0xabc") "transfer" [dest, amt] "0"] := by
  refine ⟨rfl, rfl, ?_⟩
  simp only [TokenContract.transfer, AgefixClient.execute_transaction, hkey, pyFalsy,
    Bool.false_eq_true, if_false]
  rfl

/-- Witness for C4 at a concrete keyed configuration. -/
theorem C4_deploy_round_trip_witness :
    strFalsy cfgWithKey.private_key = false ∧
    (TokenContract.deploy ⟨cfgWithKey, .null⟩ mockDeployTransport "MyToken" "MTK" "1000000" =
      (.ok { contract_address := .str "0xabc", transaction_hash := .str "0x1",
             block_number := .num 10 },
       ⟨cfgWithKey, .str "0xabc"⟩,
       [AgefixClient.deployRequest cfgWithKey (token_code "MyToken" "MTK" "1000000") []]) ∧
    (TokenContract.balance_of ⟨cfgWithKey, .str "0xabc"⟩ trConnRefused (.str "0xu")).2.2 =
      [AgefixClient.queryRequest cfgWithKey (.str "0xabc") "balanceOf" [.str "0xu"]] ∧
    (TokenContract.transfer ⟨cfgWithKey, .str "0xabc"⟩ trConnRefused (.str "0xu")
        (.str "100")).2.2 =
      [AgefixClient.executeRequest cfgWithKey (.str "0xabc") "transfer"
        [.str "0xu", .str "100"] "0"]) :=
  ⟨rfl, C4_deploy_round_trip cfgWithKey .null "MyToken" "MTK" "1000000" trConnRefused
    (.str "0xu") (.str "0xu") (.str "100") rfl⟩

/-- Claim C5: against a `/query` endpoint answering `{result:"500"}`,
`TokenContract.balance_of("0xuser")` returns `"500"`; in general
`query_contract` maps that 2xx response onto
`QueryResult(success=true, data="500")` for every address, method and
argument list. -/
theorem C5_balance_of_scenario (cfg : AgefixConfig) :
    (TokenContract.balance_of ⟨cfg, .str "0xtoken"⟩ mockQuery500Transport (.str "0xuser")).1 =
      .ok (.str "500") ∧
    ∀ (a : Json) (m : String) (args : Option (List Json)),
      (AgefixClient.query_contract cfg mockQuery500Transport a m args).1 =
        { success := true, data := .str "500", error := none } :=
  ⟨rfl, fun _ _ _ => rfl⟩

/-- Claim C6: against an `/execute` endpoint answering
`{txHash:"0x2", blockNumber:11, gasUsed:21000}` and with a signing key
configured, `TokenContract.transfer` returns a `TransactionResult` with
exactly those fields and `success=true`. -/
theorem C6_transfer_scenario (cfg : AgefixConfig) (dest amt : Json)
    (hkey : strFalsy cfg.private_key = false) :
    (TokenContract.transfer ⟨cfg, .str "0xtoken"⟩ mockExecTransport dest amt).1 =
      .ok { tx_hash := .str "0x2", block_number := .num 11, gas_used := .num 21000,
            success := true } := by
  simp only [TokenContract.transfer, AgefixClient.execute_transaction, hkey, pyFalsy,
    Bool.false_eq_true, if_false]
  rfl

/-- Witness for C6 at a concrete keyed configuration. -/
theorem C6_transfer_scenario_witness :
    strFalsy cfgWithKey.private_key = false ∧
    (TokenContract.transfer ⟨cfgWithKey, .str "0xtoken"⟩ mockExecTransport (.str "0xdest")
        (.str "100")).1 =
      .ok { tx_hash := .str "0x2", block_number := .num 11, gas_used := .num 21000,
            success := true } :=
  ⟨rfl, C6_transfer_scenario cfgWithKey (.str "0xdest") (.str "100") rfl⟩

/-- Claim C7: for every raising operation and every failure of its `try`
body — transport exception, `raise_for_status` error, decode error, or a
missing response field — the operation returns a single generic
`RuntimeError` whose message is the operation's fixed prefix followed by
`str(e)` of the original exception, never the original exception itself
(for `execute_transaction` this concerns the path past the signing-key
check). -/
theorem C7_raising_ops_wrap (cfg : AgefixConfig) (transport : Transport) (code : String)
    (cargs : Option (List Json)) (a : Json) (m : String) (args : Option (List Json))
    (value txh addr : String) :
    (∀ e, AgefixClient.deployAttempt cfg transport code (defaultArgs cargs) = .error e →
      (AgefixClient.deploy_contract cfg transport code cargs).1 =
        .error (.runtimeError ("Contract deployment failed: " ++ e.str))) ∧
    (∀ e, strFalsy cfg.private_key = false →
      AgefixClient.executeAttempt cfg transport a m (defaultArgs args) value = .error e →
      (AgefixClient.execute_transaction cfg transport a m args value).1 =
        .error (.runtimeError ("Transaction execution failed: " ++ e.str))) ∧
    (∀ e, AgefixClient.receiptAttempt cfg transport txh = .error e →
      (AgefixClient.get_transaction_receipt cfg transport txh).1 =
        .error (.runtimeError ("Failed to get transaction receipt: " ++ e.str))) ∧
    (∀ e, AgefixClient.balanceAttempt cfg transport addr = .error e →
      (AgefixClient.get_balance cfg transport addr).1 =
        .error (.runtimeError ("Failed to get balance: " ++ e.str))) ∧
    (∀ e, AgefixClient.estimateGasAttempt cfg transport a m (defaultArgs args) = .error e →
      (AgefixClient.estimate_gas cfg transport a m args).1 =
        .error (.runtimeError ("Failed to estimate gas: " ++ e.str))) := by
  refine ⟨fun e h => ?_, fun e hk h => ?_, fun e h => ?_, fun e h => ?_, fun e h => ?_⟩
  · simp [AgefixClient.deploy_contract, h]
  · simp only [AgefixClient.execute_transaction, hk, Bool.false_eq_true, if_false]
    simp [h]
  · simp [AgefixClient.get_transaction_receipt, h]
  · simp [AgefixClient.get_balance, h]
  · simp [AgefixClient.estimate_gas, h]

/-- Witness for C7: every raising operation at a concrete connection error
wraps the message "connection refused" in its own `RuntimeError`. -/
theorem C7_raising_ops_wrap_witness :
    ((AgefixClient.deploy_contract cfgWithKey trConnRefused "code" none).1 =
      .error (.runtimeError ("Contract deployment failed: " ++
        (PyExc.connectionError "connection refused").str))) ∧
    ((AgefixClient.execute_transaction cfgWithKey trConnRefused (.str "0xa") "m" none "0").1 =
      .error (.runtimeError ("Transaction execution failed: " ++
        (PyExc.connectionError "connection refused").str))) ∧
    ((AgefixClient.get_transaction_receipt cfgWithKey trConnRefused "0x1").1 =
      .error (.runtimeError ("Failed to get transaction receipt: " ++
        (PyExc.connectionError "connection refused").str))) ∧
    ((AgefixClient.get_balance cfgWithKey trConnRefused "0xa").1 =
      .error (.runtimeError ("Failed to get balance: " ++
        (PyExc.connectionError "connection refused").str))) ∧
    ((AgefixClient.estimate_gas cfgWithKey trConnRefused (.str "0xa") "m" none).1 =
      .error (.runtimeError ("Failed to estimate gas: " ++
        (PyExc.connectionError "connection refused").str))) := by
  have h := C7_raising_ops_wrap cfgWithKey trConnRefused "code" none (.str "0xa") "m" none "0"
    "0x1" "0xa"
  exact ⟨h.1 (.connectionError "connection refused") rfl,
    h.2.1 (.connectionError "connection refused") rfl rfl,
    h.2.2.1 (.connectionError "connection refused") rfl,
    h.2.2.2.1 (.connectionError "connection refused") rfl,
    h.2.2.2.2 (.connectionError "connection refused") rfl⟩

/-- Claim C8 counterexample: `AgefixConfig` is a plain (non-frozen)
dataclass, so attribute assignment after construction succeeds and
mutates the record — the record is not "impossible to mutate once
built". -/
theorem C8_counterexample :
    AgefixConfig.setattrRpcUrl
        { rpc_url := "https://rpc.agefix.com", chain_id := "agefix-mainnet-1",
          private_key := none } "https://other.example" =
      .ok { rpc_url := "https://other.example", chain_id := "agefix-mainnet-1",
            private_key := none } := rfl

/-- Claim C8 (amended): no operation of the client or the contract helpers
modifies the configuration — every helper operation leaves the config it
holds (and, for the non-deploy methods, the whole helper state) unchanged
— but the `AgefixConfig` dataclass is not frozen, so field assignment on
the record after construction is not prevented and succeeds. -/
theorem C8_config_unmodified_by_operations :
    (∀ (tc : TokenContract) (tr : Transport) (n s t : String),
      ((TokenContract.deploy tc tr n s t).2.1).client = tc.client) ∧
    (∀ (tc : TokenContract) (tr : Transport) (x : Json),
      (TokenContract.balance_of tc tr x).2.1 = tc) ∧
    (∀ (tc : TokenContract) (tr : Transport) (x y : Json),
      (TokenContract.transfer tc tr x y).2.1 = tc) ∧
    (∀ (tc : TokenContract) (tr : Transport) (x y : Json),
      (TokenContract.approve tc tr x y).2.1 = tc) ∧
    (∀ (nc : NFTContract) (tr : Transport) (n s : String),
      ((NFTContract.deploy nc tr n s).2.1).client = nc.client) ∧
    (∀ (nc : NFTContract) (tr : Transport) (x y : Json),
      (NFTContract.mint nc tr x y).2.1 = nc) ∧
    (∀ (nc : NFTContract) (tr : Transport) (x : Json),
      (NFTContract.owner_of nc tr x).2.1 = nc) ∧
    (∀ (c : AgefixConfig) (v : String),
      AgefixConfig.setattrRpcUrl c v = .ok { c with rpc_url := v }) := by
  refine ⟨?_, ?_, ?_, ?_, ?_, ?_, ?_, ?_⟩ <;> intros
  · simp only [TokenContract.deploy]
    split <;> rfl
  · unfold TokenContract.balance_of
    split <;> rfl
  · unfold TokenContract.transfer
    split <;> rfl
  · unfold TokenContract.approve
    split <;> rfl
  · simp only [NFTContract.deploy]
    split <;> rfl
  · unfold NFTContract.mint
    split <;> rfl
  · unfold NFTContract.owner_of
    split <;> rfl
  · rfl

/-- Every successful `executeAttempt` result carries `success := true`,
because the record is built with that literal field. -/
theorem executeAttempt_ok_success (cfg : AgefixConfig) (transport : Transport) (a : Json)
    (m : String) (args : List Json) (value : String) (t : TransactionResult)
    (h : AgefixClient.executeAttempt cfg transport a m args value = .ok t) :
    t.success = true := by
  unfold AgefixClient.executeAttempt at h
  cases hc : checkedJson transport (AgefixClient.executeRequest cfg a m args value) with
  | error e => rw [hc] at h; cases h
  | ok data =>
    rw [hc] at h
    dsimp only at h
    cases h1 : data.getItem "txHash" with
    | error e => rw [h1] at h; cases h
    | ok th =>
      rw [h1] at h
      dsimp only at h
      cases h2 : data.getItem "blockNumber" with
      | error e => rw [h2] at h; cases h
      | ok bn =>
        rw [h2] at h
        dsimp only at h
        cases h3 : data.getItem "gasUsed" with
        | error e => rw [h3] at h; cases h
        | ok gu =>
          rw [h3] at h
          dsimp only at h
          cases h
          rfl

/-- Claim C9: every `TransactionResult` that `execute_transaction` returns
(rather than raising) has `success = true`; no execution returns a result
with `success = false`. -/
theorem C9_execute_success_invariant (cfg : AgefixConfig) (transport : Transport) (a : Json)
    (m : String) (args : Option (List Json)) (value : String) (r : TransactionResult)
    (h : (AgefixClient.execute_transaction cfg transport a m args value).1 = .ok r) :
    r.success = true := by
  unfold AgefixClient.execute_transaction at h
  cases hfk : strFalsy cfg.private_key with
  | true => rw [hfk] at h; simp at h
  | false =>
    rw [hfk] at h
    simp only [Bool.false_eq_true, if_false] at h
    cases hatt : AgefixClient.executeAttempt cfg transport a m (defaultArgs args) value with
    | error e => rw [hatt] at h; simp at h
    | ok t =>
      rw [hatt] at h
      simp only [Except.ok.injEq] at h
      exact h ▸ executeAttempt_ok_success cfg transport a m (defaultArgs args) value t hatt

/-- Witness for C9 at the mocked `/execute` response. -/
theorem C9_execute_success_invariant_witness :
    TransactionResult.success
      { tx_hash := Json.str "0x2", block_number := Json.num 11, gas_used := Json.num 21000,
        success := true } = true :=
  C9_execute_success_invariant cfgWithKey mockExecTransport (.str "0xa") "transfer" none "0"
    { tx_hash := .str "0x2", block_number := .num 11, gas_used := .num 21000, success := true }
    rfl

/-- Claim C10: `TokenContract.balance_of` and `NFTContract.owner_of` return
the query result's `data` field without consulting its `success` flag:
whenever the underlying query fails, they return Python `None`
(`Json.null`) — not an exception and not the error string. -/
theorem C10_data_returned_without_success_check (cfg : AgefixConfig) (transport : Transport)
    (a u tid : Json) (ha : pyFalsy a = false) :
    (∀ e, AgefixClient.queryAttempt cfg transport a "balanceOf" [u] = .error e →
      TokenContract.balance_of ⟨cfg, a⟩ transport u =
        (.ok Json.null, ⟨cfg, a⟩, [AgefixClient.queryRequest cfg a "balanceOf" [u]])) ∧
    (∀ e, AgefixClient.queryAttempt cfg transport a "ownerOf" [tid] = .error e →
      NFTContract.owner_of ⟨cfg, a⟩ transport tid =
        (.ok Json.null, ⟨cfg, a⟩, [AgefixClient.queryRequest cfg a "ownerOf" [tid]])) := by
  constructor
  · intro e h
    simp only [TokenContract.balance_of, ha, Bool.false_eq_true, if_false]
    simp [AgefixClient.query_contract, defaultArgs, h]
  · intro e h
    simp only [NFTContract.owner_of, ha, Bool.false_eq_true, if_false]
    simp [AgefixClient.query_contract, defaultArgs, h]

/-- Witness for C10 at a concrete connection error. -/
theorem C10_data_returned_without_success_check_witness :
    (TokenContract.balance_of ⟨cfgNoKey, .str "0xabc"⟩ trConnRefused (.str "0xuser") =
      (.ok Json.null, ⟨cfgNoKey, .str "0xabc"⟩,
       [AgefixClient.queryRequest cfgNoKey (.str "0xabc") "balanceOf" [.str "0xuser"]])) ∧
    (NFTContract.owner_of ⟨cfgNoKey, .str "0xabc"⟩ trConnRefused (.num 1) =
      (.ok Json.null, ⟨cfgNoKey, .str "0xabc"⟩,
       [AgefixClient.queryRequest cfgNoKey (.str "0xabc") "ownerOf" [.num 1]])) := by
  have h := C10_data_returned_without_success_check cfgNoKey trConnRefused (.str "0xabc")
    (.str "0xuser") (.num 1) rfl
  exact ⟨h.1 (.connectionError "connection refused") rfl,
    h.2 (.connectionError "connection refused") rfl⟩
